import Mathlib

/-!
Verification of the Nexion resource-identity / frame-pacing core.

This file shallowly embeds the relevant parts of the Rust sources
(`nexion/src/backend/device.rs`, `nexion/src/backend/swapchain.rs`,
`nexion/src/core/swapchain.rs`, `nexion/src/definations/*.rs`) into Lean.

Conventions of the embedding:
- Machine integers (`u32`, `u64`, `usize`) are modelled as `Nat`; none of the
  verified operations can overflow (counters advance modulo small bounds, and
  extents are clamped below `u32::MAX`).
- Opaque native handles (`vk::Buffer`, `vk::Semaphore`, ...) are modelled as
  `Nat`; their values are never inspected, only selected and compared.
- A Rust `panic!` / failed `assert!` / `.expect(..)` on a `None`/`Err` is a
  process abort.  Functions that can abort return `Option` (`none` = abort) or
  `CallResult` (`.panicked msg` = abort) so that abortion is observable.
- Calls into the platform (Vulkan, the gpu-allocator crate, the display
  engine) are external: their outcomes are passed in as explicit parameters.
-/

/-- `u32::MAX`, the sentinel the surface capabilities use for
"extent is decided by the swapchain". -/
def u32Max : Nat := 4294967295

/-- Messages of the `.expect(..)` calls that the embedded operations can hit.
A `CallResult.panicked` carrying one of these models a process abort. -/
inductive PanicMsg where
  | failedToCreateBuffer
  | failedToAllocateMemoryOnDevice
  | failedToBindBufferMemory
  | failedToCreateImage
  | failedToBindImageMemory
deriving DecidableEq, Repr

/-- Result of running an embedded operation whose Rust original returns a
plain value but may abort the process via `.expect(..)`.  `panicked` is a
process abort: no value of the declared return type reaches the caller. -/
inductive CallResult (α : Type) where
  | panicked (msg : PanicMsg)
  | ok (value : α)
deriving DecidableEq, Repr

/-- `true` exactly when the operation aborted the process. -/
def CallResult.isPanicked {α : Type} : CallResult α → Bool
  | .panicked _ => true
  | .ok _ => false

/-! ## Slot pool (`ResourcePool`)

Modelled from the spec: the file `nexion/src/backend/gpu_resources.rs`
defining `ResourcePool<T>` is not among the provided sources (only its
callers in `device.rs` / `swapchain.rs` and the spec's §4.1 describe it).
Spec §4.1: a paged array of slots plus a LIFO free-index stack;
`add` reuses a freed index before growing, growth appends so existing
indices stay valid; `delete` frees the slot and returns the payload, and is
fatal on an unoccupied or out-of-range id; `get_ref` is fatal under the same
condition.  Paging only affects memory layout, never which index holds which
payload, so the paged array is modelled as a flat `List (Option T)` and page
growth as appending to it. -/
structure ResourcePool (T : Type) where
  slots : List (Option T)
  free_list : List Nat
deriving DecidableEq, Repr

/-- Modelled from the spec: an empty pool. -/
def ResourcePool.new {T : Type} : ResourcePool T :=
  { slots := [], free_list := [] }

/-- Modelled from the spec: `add(payload) -> id` prefers reusing a freed
index (LIFO) before growing. -/
def ResourcePool.add {T : Type} (p : ResourcePool T) (payload : T) :
    Nat × ResourcePool T :=
  match p.free_list with
  | i :: rest => (i, { slots := p.slots.set i (some payload), free_list := rest })
  | [] => (p.slots.length, { slots := p.slots ++ [some payload], free_list := [] })

/-- Modelled from the spec: `delete(id) -> payload` frees the slot and
returns the payload; fatal (`none`) on an unoccupied or out-of-range id. -/
def ResourcePool.delete {T : Type} (p : ResourcePool T) (id : Nat) :
    Option (T × ResourcePool T) :=
  match p.slots.getD id none with
  | some payload =>
      some (payload, { slots := p.slots.set id none, free_list := id :: p.free_list })
  | none => none

/-- Modelled from the spec: `get_ref(id)`; fatal (`none`) on an unoccupied
or out-of-range id. -/
def ResourcePool.get_ref {T : Type} (p : ResourcePool T) (id : Nat) : Option T :=
  match p.slots.getD id none with
  | some payload => some payload
  | none => none

/-- The set of live entries of a pool: every occupied index paired with its
payload, in index order. -/
def ResourcePool.liveEntries {T : Type} (p : ResourcePool T) : List (Nat × T) :=
  (List.range p.slots.length).filterMap (fun i =>
    match p.slots.getD i none with
    | some t => some (i, t)
    | none => none)

/-- Well-formedness maintained by the pool: every index on the free stack is
in range and its slot is unoccupied. -/
def ResourcePool.WF {T : Type} (p : ResourcePool T) : Prop :=
  ∀ i ∈ p.free_list, i < p.slots.length ∧ p.slots.getD i none = none

instance {T : Type} [DecidableEq T] (p : ResourcePool T) : Decidable p.WF := by
  unfold ResourcePool.WF
  infer_instance

/-! ## GPU resource slots (`backend/device.rs`, `backend/gpu_resources.rs` uses) -/

/-- An allocation handed back by the external gpu-allocator capability. -/
structure Allocation where
  memory : Nat
  offset : Nat
  mapped_ptr : Option Nat
deriving DecidableEq, Repr

/-- `BufferSlot { handle, allocation, address }` as stored in the buffer pool. -/
structure BufferSlot where
  handle : Nat
  allocation : Allocation
  address : Nat
deriving DecidableEq, Repr

/-- `ImageSlot { handle, allocation, format }` as stored in the image pool. -/
structure ImageSlot where
  handle : Nat
  allocation : Allocation
  format : Nat
deriving DecidableEq, Repr

/-! ## Resource Authority: create / destroy (`backend/device.rs`) -/

/-- Outcomes of the external platform calls made by
`InnerDevice::create_buffer`: `vkCreateBuffer`, `allocator.allocate`,
`vkBindBufferMemory` (`none` = the call failed), plus the address returned by
`vkGetBufferDeviceAddress`. -/
structure BufferPlatformCalls where
  create_buffer : Option Nat
  allocate : Option Allocation
  bind_buffer_memory : Option Unit
  buffer_device_address : Nat
deriving DecidableEq, Repr

/-- `InnerDevice::create_buffer` (device.rs, lines 330-370): creates the
native buffer, allocates and binds memory, and adds the slot to the buffer
pool, converting every platform failure into a panic via `.expect(..)`.
Returns the updated pool and the raw id of the new `BufferId`. -/
def InnerDevice.create_buffer (env : BufferPlatformCalls)
    (pool : ResourcePool BufferSlot) : CallResult (ResourcePool BufferSlot × Nat) :=
  match env.create_buffer with
  | none => .panicked .failedToCreateBuffer
  | some buffer =>
    match env.allocate with
    | none => .panicked .failedToAllocateMemoryOnDevice
    | some allocation =>
      match env.bind_buffer_memory with
      | none => .panicked .failedToBindBufferMemory
      | some _ =>
        let raw_id := (pool.add
          { handle := buffer, allocation := allocation, address := env.buffer_device_address }).1
        let pool1 := (pool.add
          { handle := buffer, allocation := allocation, address := env.buffer_device_address }).2
        .ok (pool1, raw_id)

/-- Outcomes of the external platform calls made by
`InnerDevice::create_image`: `vkCreateImage`, `allocator.allocate`,
`vkBindImageMemory`, plus the requested format. -/
structure ImagePlatformCalls where
  create_image : Option Nat
  allocate : Option Allocation
  bind_image_memory : Option Unit
  format : Nat
deriving DecidableEq, Repr

/-- `InnerDevice::create_image` (device.rs, lines 405-444): creates the
native image, allocates and binds memory, and adds the slot to the image
pool, converting every platform failure into a panic via `.expect(..)`. -/
def InnerDevice.create_image (env : ImagePlatformCalls)
    (pool : ResourcePool ImageSlot) : CallResult (ResourcePool ImageSlot × Nat) :=
  match env.create_image with
  | none => .panicked .failedToCreateImage
  | some image =>
    match env.allocate with
    | none => .panicked .failedToAllocateMemoryOnDevice
    | some allocation =>
      match env.bind_image_memory with
      | none => .panicked .failedToBindImageMemory
      | some _ =>
        let raw_id := (pool.add
          { handle := image, allocation := allocation, format := env.format }).1
        let pool1 := (pool.add
          { handle := image, allocation := allocation, format := env.format }).2
        .ok (pool1, raw_id)

/-- Observable side effects of a destroy operation, in the order they are
performed. -/
inductive DestroyStep where
  | pool_slot_freed (id : Nat)
  | allocation_released (memory : Nat) (offset : Nat)
  | native_destroyed (handle : Nat)
deriving DecidableEq, Repr

/-- `InnerDevice::destroy_buffer` (device.rs, lines 372-379): deletes the
slot from the buffer pool, then frees the allocation through the external
allocator (whose success is `allocator_free_ok`; failure panics via
`.expect`), then destroys the native buffer.  The returned trace lists the
steps in execution order; `none` is a process abort. -/
def InnerDevice.destroy_buffer (allocator_free_ok : Bool)
    (pool : ResourcePool BufferSlot) (id : Nat) :
    Option (ResourcePool BufferSlot × List DestroyStep) :=
  match pool.delete id with
  | none => none
  | some (res, pool1) =>
    let trace0 := [DestroyStep.pool_slot_freed id]
    if allocator_free_ok then
      let trace1 := trace0 ++ [DestroyStep.allocation_released res.allocation.memory res.allocation.offset]
      let trace2 := trace1 ++ [DestroyStep.native_destroyed res.handle]
      some (pool1, trace2)
    else none

/-- `InnerDevice::destroy_image` (device.rs, lines 446-453): same shape as
`destroy_buffer` over the image pool. -/
def InnerDevice.destroy_image (allocator_free_ok : Bool)
    (pool : ResourcePool ImageSlot) (id : Nat) :
    Option (ResourcePool ImageSlot × List DestroyStep) :=
  match pool.delete id with
  | none => none
  | some (img, pool1) =>
    let trace0 := [DestroyStep.pool_slot_freed id]
    if allocator_free_ok then
      let trace1 := trace0 ++ [DestroyStep.allocation_released img.allocation.memory img.allocation.offset]
      let trace2 := trace1 ++ [DestroyStep.native_destroyed img.handle]
      some (pool1, trace2)
    else none

/-! ## Queue submission (`backend/device.rs`, `definations/commands.rs`) -/

/-- `QueueType` (definations/commands.rs). -/
inductive QueueType where
  | Graphics
  | Transfer
  | Compute
  | None
deriving DecidableEq, Repr

/-- `ExecutableCommandBuffer`: its declaring file (`core/commands.rs`) is not
among the provided sources; the two fields used by `InnerDevice::submit`
(`handle`, `queue_type`) are taken from those uses. -/
structure ExecutableCommandBuffer where
  handle : Nat
  queue_type : QueueType
deriving DecidableEq, Repr

/-- `QueueSubmitInfo` (definations/commands.rs); semaphores are reduced to
their handles, which `submit` only repackages. -/
structure QueueSubmitInfo where
  fence : Option Nat
  command_buffers : List ExecutableCommandBuffer
  wait_semaphores : List Nat
  signal_semaphores : List Nat
deriving DecidableEq, Repr

/-- The three device queues `InnerDevice` holds. -/
inductive Queue where
  | graphics
  | compute
  | transfer
deriving DecidableEq, Repr

/-- The queue-handle selection `match` at the end of `InnerDevice::submit`
(`QueueType::None` hits the `panic!` arm). -/
def queueFor : QueueType → Option Queue
  | .Graphics => some .graphics
  | .Compute => some .compute
  | .Transfer => some .transfer
  | .None => none

/-- `InnerDevice::submit` (device.rs, lines 615-661): reads the queue type of
`command_buffers[0]` (panics on an empty list), asserts every command buffer
has that same type while collecting the submit infos, selects the queue from
that type (panics on `QueueType::None`), and submits.  The result is the
selected queue together with the submitted command-buffer handles; `none` is
a process abort. -/
def InnerDevice.submit (info : QueueSubmitInfo) : Option (Queue × List Nat) :=
  match info.command_buffers with
  | [] => none
  | first :: _ =>
    let cmd_type := first.queue_type
    if info.command_buffers.all (fun cb => decide (cb.queue_type = cmd_type)) then
      match queueFor cmd_type with
      | some q => some (q, info.command_buffers.map (fun cb => cb.handle))
      | none => none
    else none

/-! ## Swapchain (`backend/swapchain.rs`, `core/swapchain.rs`) -/

/-- `SwapchainDescription` (definations/core.rs). -/
structure SwapchainDescription where
  image_count : Nat
  frames_in_flight : Nat
  width : Nat
  height : Nat
deriving DecidableEq, Repr

/-- `Extent2D` / `vk::Extent2D`. -/
structure Extent2D where
  width : Nat
  height : Nat
deriving DecidableEq, Repr

/-- `vk::SurfaceFormatKHR`, with format and color space as raw codes. -/
structure SurfaceFormat where
  format : Nat
  color_space : Nat
deriving DecidableEq, Repr

/-- Code of `vk::Format::R16G16B16A16_SFLOAT`. -/
def vkFormatR16G16B16A16Sfloat : Nat := 97

/-- Code of `vk::ColorSpaceKHR::SRGB_NONLINEAR`. -/
def vkColorSpaceSrgbNonlinear : Nat := 0

/-- `vk::PresentModeKHR` values the code distinguishes. -/
inductive PresentMode where
  | MAILBOX
  | FIFO
  | IMMEDIATE
  | FIFO_RELAXED
deriving DecidableEq, Repr

/-- `vk::SurfaceCapabilitiesKHR`, reduced to the fields the code reads. -/
structure SurfaceCapabilities where
  current_extent : Extent2D
  min_image_extent : Extent2D
  max_image_extent : Extent2D
deriving DecidableEq, Repr

/-- `SwapchainSupport` (backend/swapchain.rs): the one-time surface
capability query.  `Surface::get_swapchain_support` returning `None` hits an
`.expect` in `InnerSwapchain::new`, so a value of this type stands for a
successful query. -/
structure SwapchainSupport where
  capabilities : SurfaceCapabilities
  formats : List SurfaceFormat
  present_modes : List PresentMode
deriving DecidableEq, Repr

/-- `u32::clamp(min, max)`: panics (`none`) when `min > max`, otherwise
clamps. -/
def clampU32 (x lo hi : Nat) : Option Nat :=
  if lo ≤ hi then some (min (max x lo) hi) else none

/-- The extent block of `InnerSwapchain::new` (swapchain.rs, lines 94-103):
the platform's current extent when it is fixed (width ≠ `u32::MAX`),
otherwise the requested extent clamped to the platform min/max. -/
def chooseExtent (support : SwapchainSupport) (desc : SwapchainDescription) :
    Option Extent2D :=
  if support.capabilities.current_extent.width ≠ u32Max then
    some support.capabilities.current_extent
  else
    match clampU32 desc.width support.capabilities.min_image_extent.width
            support.capabilities.max_image_extent.width,
          clampU32 desc.height support.capabilities.min_image_extent.height
            support.capabilities.max_image_extent.height with
    | some w, some h => some { width := w, height := h }
    | _, _ => none

/-- The present-mode block of `InnerSwapchain::new`: MAILBOX when supported,
else FIFO. -/
def choosePresentMode (modes : List PresentMode) : PresentMode :=
  if modes.contains PresentMode.MAILBOX then PresentMode.MAILBOX else PresentMode.FIFO

/-- The surface-format block of `InnerSwapchain::new`: the first
R16G16B16A16_SFLOAT + SRGB_NONLINEAR format, else `formats[0]` (which panics
on an empty list, modelled as `none`). -/
def findSurfaceFormat (formats : List SurfaceFormat) : Option SurfaceFormat :=
  match formats.find? (fun f =>
      decide (f.format = vkFormatR16G16B16A16Sfloat) &&
      decide (f.color_space = vkColorSpaceSrgbNonlinear)) with
  | some f => some f
  | none => formats[0]?

/-- `InnerSwapchain` (backend/swapchain.rs).  Native handles and pool ids are
opaque `Nat`s: `images` holds the pool ids of the presentable images (one per
platform image), `image_views` one view id per image.  `extent` records the
extent passed to `vkCreateSwapchainKHR`, i.e. the extent of the native
swapchain.  `curr_img_indeices` models the `VecDeque<u32>` with the list
head as the deque front, so `push_back` appends and `pop_back` takes the
last element. -/
structure InnerSwapchain where
  desc : SwapchainDescription
  extent : Extent2D
  surface_format : SurfaceFormat
  present_mode : PresentMode
  images : List Nat
  image_views : List Nat
  preset_semaphores : List Nat
  image_semaphores : List Nat
  fences : List Nat
  curr_img_indeices : List Nat
  image_timeline : Nat
  frame_timeline : Nat
deriving DecidableEq, Repr

/-- `InnerSwapchain::new` (swapchain.rs, lines 70-180).  External inputs: the
surface support query result and the images returned by
`vkGetSwapchainImagesKHR` (as the pool ids they receive).  `none` is a
process abort: the failed `assert!(frames_in_flight <= image_count)`, an
empty format list, or a malformed capability range.  The semaphore and fence
vectors mirror the construction loops: one present semaphore per
`image_count`, and — as in the source's second loop — `image_count` (not
`frames_in_flight`) image-acquired semaphores and fences.  Fences are
created signaled; semaphore/fence handles are opaque and modelled by their
creation order. -/
def InnerSwapchain.new (desc : SwapchainDescription) (support : SwapchainSupport)
    (platform_images : List Nat) : Option InnerSwapchain :=
  if desc.frames_in_flight ≤ desc.image_count then
    match findSurfaceFormat support.formats, chooseExtent support desc with
    | some surface_format, some extent =>
      some { desc := desc
             extent := extent
             surface_format := surface_format
             present_mode := choosePresentMode support.present_modes
             images := platform_images
             image_views := List.range platform_images.length
             preset_semaphores := List.range desc.image_count
             image_semaphores := List.range desc.image_count
             fences := List.range desc.image_count
             curr_img_indeices := []
             image_timeline := 0
             frame_timeline := 0 }
    | _, _ => none
  else none

/-- `AcquiredImage` (core/swapchain.rs), handles reduced to `Nat`. -/
structure AcquiredImage where
  image : Nat
  view : Nat
  image_semaphore : Nat
  present_semaphore : Nat
  fence : Nat
  curr_frame : Nat
deriving DecidableEq, Repr

/-- `InnerSwapchain::acquire_image` (swapchain.rs, lines 224-257).  The fence
wait/reset and `vkAcquireNextImage2KHR` are external; `index` is the image
index the display engine returned (the call's `.expect` on failure is
external to this model).  The function selects the current frame slot's
semaphore and fence, pushes `index` onto the pending deque, advances the two
rotation counters modulo their own bounds, and returns the acquired-image
record whose `curr_frame` is the pre-advance frame counter.  `none` is a
process abort from out-of-range indexing. -/
def InnerSwapchain.acquire_image (s : InnerSwapchain) (index : Nat) :
    Option (AcquiredImage × InnerSwapchain) :=
  match s.image_semaphores[s.frame_timeline]?, s.fences[s.frame_timeline]?,
        s.images[index]?, s.image_views[index]?, s.preset_semaphores[index]? with
  | some image_semaphore, some fence, some image, some view, some present_semaphore =>
      some ({ image := image
              view := view
              image_semaphore := image_semaphore
              present_semaphore := present_semaphore
              fence := fence
              curr_frame := s.frame_timeline },
            { s with curr_img_indeices := s.curr_img_indeices ++ [index]
                     image_timeline := (s.image_timeline + 1) % s.desc.image_count
                     frame_timeline := (s.frame_timeline + 1) % s.desc.frames_in_flight })
  | _, _, _, _, _ => none

/-- A sequence of `acquire_image` calls, one per display-engine image index
in `platform_indices`, collecting the returned records in call order. -/
def acquireRun (s : InnerSwapchain) (platform_indices : List Nat) :
    Option (List AcquiredImage × InnerSwapchain) :=
  match platform_indices with
  | [] => some ([], s)
  | idx :: rest =>
    match s.acquire_image idx with
    | none => none
    | some (a, s1) =>
      match acquireRun s1 rest with
      | none => none
      | some (as1, s2) => some (a :: as1, s2)

/-- The present request `InnerSwapchain::present` hands to
`vkQueuePresentKHR`: the semaphore it waits on and the image index it
presents. -/
structure PresentRequest where
  wait_semaphore : Nat
  image_index : Nat
deriving DecidableEq, Repr

/-- `InnerSwapchain::present` (swapchain.rs, lines 259-277): pops the back of
the pending deque; on an empty deque it returns immediately (no state
change, no request, no error).  Otherwise it issues a present request
waiting on that image's present semaphore (`queue_present` itself is
external).  `none` is a process abort from out-of-range indexing. -/
def InnerSwapchain.present (s : InnerSwapchain) :
    Option (InnerSwapchain × Option PresentRequest) :=
  match s.curr_img_indeices.getLast? with
  | none => some (s, none)
  | some index =>
    match s.preset_semaphores[index]? with
    | none => none
    | some sem =>
      some ({ s with curr_img_indeices := s.curr_img_indeices.dropLast },
            some { wait_semaphore := sem, image_index := index })

/-- `Swapchain::recreate_swapchain` (core/swapchain.rs, lines 29-39): builds
a fresh description from the stored one with the new width and height, and
constructs a new inner swapchain (the old one is passed only for native
chaining).  The fresh support query and platform images are external
inputs. -/
def Swapchain.recreate_swapchain (s : InnerSwapchain) (support : SwapchainSupport)
    (platform_images : List Nat) (width height : Nat) : Option InnerSwapchain :=
  InnerSwapchain.new
    { image_count := s.desc.image_count
      frames_in_flight := s.desc.frames_in_flight
      width := width
      height := height }
    support platform_images

/-! ## Concrete fixtures used by the closed statements below -/

/-- Description with `image_count = 3`, `frames_in_flight = 2` (the spec's
running example). -/
def descC2 : SwapchainDescription :=
  { image_count := 3, frames_in_flight := 2, width := 800, height := 600 }

/-- Description violating the constructor assertion
(`frames_in_flight = 3 > image_count = 2`). -/
def desc23 : SwapchainDescription :=
  { image_count := 2, frames_in_flight := 3, width := 800, height := 600 }

/-- A surface whose capabilities report a fixed current extent of 800 by 600
(width different from `u32::MAX`). -/
def supportFixed : SwapchainSupport :=
  { capabilities :=
      { current_extent := { width := 800, height := 600 }
        min_image_extent := { width := 1, height := 1 }
        max_image_extent := { width := 4096, height := 4096 } }
    formats := [{ format := 97, color_space := 0 }]
    present_modes := [PresentMode.FIFO] }

/-- The swapchain `InnerSwapchain.new descC2 supportFixed [100, 101, 102]`
produces (spelled out). -/
def sC2 : InnerSwapchain :=
  { desc := descC2
    extent := { width := 800, height := 600 }
    surface_format := { format := 97, color_space := 0 }
    present_mode := PresentMode.FIFO
    images := [100, 101, 102]
    image_views := [0, 1, 2]
    preset_semaphores := [0, 1, 2]
    image_semaphores := [0, 1, 2]
    fences := [0, 1, 2]
    curr_img_indeices := []
    image_timeline := 0
    frame_timeline := 0 }

/-- What `sC2.acquire_image 1` returns. -/
def aC2 : AcquiredImage :=
  { image := 101, view := 1, image_semaphore := 0, present_semaphore := 1,
    fence := 0, curr_frame := 0 }

/-- The swapchain state after `sC2.acquire_image 1`. -/
def s1C2 : InnerSwapchain :=
  { sC2 with curr_img_indeices := [1], image_timeline := 1, frame_timeline := 1 }

/-- `sC2` with two pending acquired image indices. -/
def sPend : InnerSwapchain :=
  { sC2 with curr_img_indeices := [1, 2] }

/-- Platform outcomes where `vkCreateBuffer` succeeds but the allocator
reports out-of-memory. -/
def envBufOOM : BufferPlatformCalls :=
  { create_buffer := some 1, allocate := none, bind_buffer_memory := some (),
    buffer_device_address := 0 }

/-- Platform outcomes where `vkCreateImage` succeeds but the allocator
reports out-of-memory. -/
def envImgOOM : ImagePlatformCalls :=
  { create_image := some 1, allocate := none, bind_image_memory := some (),
    format := 97 }

/-- A well-formed two-slot pool: index 0 live with payload 7, index 1 free. -/
def poolC8 : ResourcePool Nat :=
  { slots := [some 7, none], free_list := [1] }

/-- A live buffer slot. -/
def slotC5 : BufferSlot :=
  { handle := 5, allocation := { memory := 9, offset := 16, mapped_ptr := none },
    address := 4096 }

/-- A one-slot buffer pool holding `slotC5` at id 0. -/
def poolC5 : ResourcePool BufferSlot :=
  { slots := [some slotC5], free_list := [] }

/-- A live image slot. -/
def slotC5i : ImageSlot :=
  { handle := 6, allocation := { memory := 10, offset := 32, mapped_ptr := none },
    format := 97 }

/-- A one-slot image pool holding `slotC5i` at id 0. -/
def poolC5i : ResourcePool ImageSlot :=
  { slots := [some slotC5i], free_list := [] }

/-- A graphics command buffer. -/
def cbG0 : ExecutableCommandBuffer := { handle := 11, queue_type := QueueType.Graphics }

/-- A second graphics command buffer. -/
def cbG1 : ExecutableCommandBuffer := { handle := 12, queue_type := QueueType.Graphics }

/-- A submit request with two graphics command buffers. -/
def infoC9 : QueueSubmitInfo :=
  { fence := some 3, command_buffers := [cbG0, cbG1],
    wait_semaphores := [1], signal_semaphores := [2] }

/-- The swapchain `Swapchain.recreate_swapchain sC2 supportFixed [100, 101, 102] 1920 1080`
produces. -/
def s1C7 : InnerSwapchain :=
  { sC2 with desc := { image_count := 3, frames_in_flight := 2, width := 1920, height := 1080 } }

/-- The swapchain `Swapchain.recreate_swapchain sC2 supportFixed [100, 101, 102] 640 480`
produces. -/
def s1C10 : InnerSwapchain :=
  { sC2 with desc := { image_count := 3, frames_in_flight := 2, width := 640, height := 480 } }

/-! ## Helper lemmas about lists and pools -/

theorem getD_append_of_lt {T : Type} (xs ys : List (Option T)) (i : Nat)
    (h : i < xs.length) : (xs ++ ys).getD i none = xs.getD i none := by
  induction xs generalizing i with
  | nil => simp at h
  | cons a t ih =>
    cases i with
    | zero => rfl
    | succ n => simpa using ih n (by simpa using h)

theorem getD_append_last {T : Type} (xs : List (Option T)) (a : Option T) :
    (xs ++ [a]).getD xs.length none = a := by
  induction xs with
  | nil => rfl
  | cons b t ih => simp [ih]

theorem set_append_last {T : Type} (xs : List (Option T)) (a b : Option T) :
    (xs ++ [a]).set xs.length b = xs ++ [b] := by
  induction xs with
  | nil => rfl
  | cons c t ih => simp [ih]

theorem getD_set_self {T : Type} (xs : List (Option T)) (i : Nat) (a : Option T)
    (h : i < xs.length) : (xs.set i a).getD i none = a := by
  induction xs generalizing i with
  | nil => simp at h
  | cons c t ih =>
    cases i with
    | zero => rfl
    | succ n => simpa using ih n (by simpa using h)

theorem set_none_of_getD_none {T : Type} (xs : List (Option T)) (i : Nat)
    (h : xs.getD i none = none) : xs.set i none = xs := by
  induction xs generalizing i with
  | nil => rfl
  | cons a t ih =>
    cases i with
    | zero => simp only [List.getD_cons_zero] at h; simp [h]
    | succ n =>
      simp only [List.getD_cons_succ] at h
      simp [ih n h]

theorem filterMap_congr_mem {α β : Type} (l : List α) (f g : α → Option β)
    (h : ∀ x ∈ l, f x = g x) : l.filterMap f = l.filterMap g := by
  induction l with
  | nil => rfl
  | cons a t ih =>
    simp only [List.filterMap_cons, h a (by simp),
      ih (fun x hx => h x (by simp [hx]))]

theorem liveEntries_append_none {T : Type} (xs : List (Option T)) (f1 f2 : List Nat) :
    ResourcePool.liveEntries { slots := xs ++ [none], free_list := f1 } =
      ResourcePool.liveEntries { slots := xs, free_list := f2 } := by
  unfold ResourcePool.liveEntries
  simp only [List.length_append, List.length_cons, List.length_nil, Nat.zero_add]
  rw [List.range_succ, List.filterMap_append]
  have h2 : List.filterMap (fun i =>
      match (xs ++ [none]).getD i none with
      | some t => some (i, t)
      | none => none) [xs.length] = [] := by
    simp [List.filterMap_cons, getD_append_last]
  rw [h2, List.append_nil]
  exact filterMap_congr_mem _ _ _ (fun i hi => by
    have hlt : i < xs.length := List.mem_range.mp hi
    rw [getD_append_of_lt xs [none] i hlt])

/-! ## Claim theorems -/

/-- Claim C8 (confirmed, pool modelled from the spec): for every payload `x`
and every well-formed Slot Pool state, `delete(add(x))` returns exactly `x`
and leaves the pool's set of live entries unchanged. -/
theorem C8_pool_add_delete_roundtrip {T : Type} (p : ResourcePool T) (x : T)
    (hwf : p.WF) :
    ((p.add x).2.delete (p.add x).1).map (fun r => (r.1, r.2.liveEntries)) =
      some (x, p.liveEntries) := by
  cases hf : p.free_list with
  | nil =>
    have hadd : p.add x =
        (p.slots.length, { slots := p.slots ++ [some x], free_list := [] }) := by
      unfold ResourcePool.add; rw [hf]
    rw [hadd]
    unfold ResourcePool.delete
    simp only [getD_append_last, set_append_last]
    simp only [Option.map_some']
    exact congrArg (fun l => some (x, l)) (liveEntries_append_none p.slots _ p.free_list)
  | cons i rest =>
    have hmem : i ∈ p.free_list := by rw [hf]; exact List.mem_cons_self i rest
    obtain ⟨hlt, hnone⟩ := hwf i hmem
    have hadd : p.add x =
        (i, { slots := p.slots.set i (some x), free_list := rest }) := by
      unfold ResourcePool.add; rw [hf]
    rw [hadd]
    unfold ResourcePool.delete
    simp only [getD_set_self _ _ _ hlt]
    simp only [Option.map_some']
    have hslots : (p.slots.set i (some x)).set i none = p.slots := by
      rw [List.set_set]
      exact set_none_of_getD_none p.slots i hnone
    have hlive : ResourcePool.liveEntries
        { slots := (p.slots.set i (some x)).set i none, free_list := i :: rest } =
        p.liveEntries := by
      unfold ResourcePool.liveEntries
      rw [hslots]
    rw [hlive]

/-- Claim C8 witness: the round trip evaluated on a concrete well-formed
pool. -/
theorem C8_witness :
    ((poolC8.add 42).2.delete (poolC8.add 42).1).map
        (fun r => (r.1, r.2.liveEntries)) = some (42, poolC8.liveEntries) :=
  C8_pool_add_delete_roundtrip poolC8 42 (by decide)

/-- Claim C2 (confirmed): on a swapchain with `frames_in_flight = 2` and
`image_count = 3`, five consecutive `acquire_image` calls return frame-slot
indices 0,1,0,1,0; in general `acquire_image` returns the current
frame-in-flight counter as `curr_frame`, advances the image rotation counter
modulo `image_count` and the frame counter modulo `frames_in_flight`
independently, and pushes the acquired image index onto the pending queue. -/
theorem C2_acquire_image_spec :
    (((InnerSwapchain.new descC2 supportFixed [100, 101, 102]).bind
        (fun s0 => acquireRun s0 [0, 1, 2, 0, 1])).map
        (fun r => r.1.map AcquiredImage.curr_frame) = some [0, 1, 0, 1, 0]) ∧
    ∀ (s : InnerSwapchain) (index : Nat) (a : AcquiredImage) (s1 : InnerSwapchain),
      s.acquire_image index = some (a, s1) →
      a.curr_frame = s.frame_timeline ∧
      s1.frame_timeline = (s.frame_timeline + 1) % s.desc.frames_in_flight ∧
      s1.image_timeline = (s.image_timeline + 1) % s.desc.image_count ∧
      s1.curr_img_indeices = s.curr_img_indeices ++ [index] := by
  constructor
  · decide
  · intro s index a s1 h
    unfold InnerSwapchain.acquire_image at h
    split at h
    · simp only [Option.some.injEq, Prod.mk.injEq] at h
      obtain ⟨ha, hs⟩ := h
      subst ha
      subst hs
      exact ⟨rfl, rfl, rfl, rfl⟩
    · exact absurd h (by simp)

/-- Claim C2 witness: the general acquire step evaluated on the concrete
swapchain `sC2` with display-engine image index 1. -/
theorem C2_witness :
    aC2.curr_frame = sC2.frame_timeline ∧
    s1C2.frame_timeline = (sC2.frame_timeline + 1) % sC2.desc.frames_in_flight ∧
    s1C2.image_timeline = (sC2.image_timeline + 1) % sC2.desc.image_count ∧
    s1C2.curr_img_indeices = sC2.curr_img_indeices ++ [1] :=
  C2_acquire_image_spec.2 sC2 1 aC2 s1C2 (by decide)

/-- Claim C3 (confirmed): swapchain construction checks
`frames_in_flight ≤ image_count`; constructing with
`frames_in_flight > image_count` is fatal (the assertion aborts), and any
successfully constructed swapchain satisfies the bound. -/
theorem C3_construction_checks_fif_le_ic :
    ∀ (desc : SwapchainDescription) (support : SwapchainSupport) (imgs : List Nat),
      (desc.image_count < desc.frames_in_flight →
        InnerSwapchain.new desc support imgs = none) ∧
      (∀ s, InnerSwapchain.new desc support imgs = some s →
        s.desc.frames_in_flight ≤ s.desc.image_count) := by
  intro desc support imgs
  constructor
  · intro hlt
    unfold InnerSwapchain.new
    rw [if_neg (by omega)]
  · intro s hs
    unfold InnerSwapchain.new at hs
    by_cases hle : desc.frames_in_flight ≤ desc.image_count
    · rw [if_pos hle] at hs
      split at hs
      · cases hs
        exact hle
      · exact absurd hs (by simp)
    · rw [if_neg hle] at hs
      exact absurd hs (by simp)

/-- Claim C3 witness: construction with `frames_in_flight = 3 >
image_count = 2` aborts. -/
theorem C3_witness : InnerSwapchain.new desc23 supportFixed [] = none :=
  (C3_construction_checks_fif_le_ic desc23 supportFixed []).1 (by decide)

/-- Claim C4 (confirmed): `present` pops the most recently pushed pending
image index and issues a present request waiting on exactly that image's
present-ready semaphore; with an empty pending queue it is a no-op that
changes no state and raises no error. -/
theorem C4_present_spec :
    ∀ s : InnerSwapchain,
      (s.curr_img_indeices = [] → s.present = some (s, none)) ∧
      (∀ index sem, s.curr_img_indeices.getLast? = some index →
        s.preset_semaphores[index]? = some sem →
        s.present =
          some ({ s with curr_img_indeices := s.curr_img_indeices.dropLast },
                some { wait_semaphore := sem, image_index := index })) := by
  intro s
  constructor
  · intro h
    unfold InnerSwapchain.present
    rw [h]
    rfl
  · intro index sem h1 h2
    unfold InnerSwapchain.present
    simp only [h1, h2]

/-- Claim C4 witness: `present` on a concrete swapchain with pending indices
`[1, 2]` pops 2 and waits on present semaphore 2; `present` on the same
swapchain with no pending index is a no-op. -/
theorem C4_witness :
    sPend.present =
      some ({ sPend with curr_img_indeices := sPend.curr_img_indeices.dropLast },
            some { wait_semaphore := 2, image_index := 2 }) ∧
    sC2.present = some (sC2, none) :=
  ⟨(C4_present_spec sPend).2 2 2 (by decide) (by decide),
   (C4_present_spec sC2).1 (by decide)⟩

/-- Claim C5 (confirmed): `destroy_buffer` and `destroy_image` on a live id
free the pool slot, then release the backing allocation, then destroy the
native object, strictly in that order. -/
theorem C5_destroy_order_spec :
    ∀ (poolB : ResourcePool BufferSlot) (idB : Nat) (resB : BufferSlot)
      (poolI : ResourcePool ImageSlot) (idI : Nat) (resI : ImageSlot),
      (poolB.get_ref idB = some resB →
        InnerDevice.destroy_buffer true poolB idB =
          some ({ slots := poolB.slots.set idB none, free_list := idB :: poolB.free_list },
                [DestroyStep.pool_slot_freed idB,
                 DestroyStep.allocation_released resB.allocation.memory resB.allocation.offset,
                 DestroyStep.native_destroyed resB.handle])) ∧
      (poolI.get_ref idI = some resI →
        InnerDevice.destroy_image true poolI idI =
          some ({ slots := poolI.slots.set idI none, free_list := idI :: poolI.free_list },
                [DestroyStep.pool_slot_freed idI,
                 DestroyStep.allocation_released resI.allocation.memory resI.allocation.offset,
                 DestroyStep.native_destroyed resI.handle])) := by
  intro poolB idB resB poolI idI resI
  constructor
  · intro h
    unfold ResourcePool.get_ref at h
    unfold InnerDevice.destroy_buffer ResourcePool.delete
    cases hg : poolB.slots.getD idB none with
    | none => rw [hg] at h; exact absurd h (by simp)
    | some payload =>
      rw [hg] at h
      simp only [Option.some.injEq] at h
      subst h
      simp only [hg]
      rfl
  · intro h
    unfold ResourcePool.get_ref at h
    unfold InnerDevice.destroy_image ResourcePool.delete
    cases hg : poolI.slots.getD idI none with
    | none => rw [hg] at h; exact absurd h (by simp)
    | some payload =>
      rw [hg] at h
      simp only [Option.some.injEq] at h
      subst h
      simp only [hg]
      rfl

/-- Claim C5 witness: destruction order evaluated on concrete one-slot
pools. -/
theorem C5_witness :
    InnerDevice.destroy_buffer true poolC5 0 =
      some ({ slots := poolC5.slots.set 0 none, free_list := 0 :: poolC5.free_list },
            [DestroyStep.pool_slot_freed 0,
             DestroyStep.allocation_released slotC5.allocation.memory slotC5.allocation.offset,
             DestroyStep.native_destroyed slotC5.handle]) :=
  (C5_destroy_order_spec poolC5 0 slotC5 poolC5i 0 slotC5i).1 (by decide)

/-- Claim C6 (code bug): the spec and the claim say one image-acquired
semaphore and one CPU-wait fence per frame-in-flight slot, but the
construction loop in `InnerSwapchain::new` (swapchain.rs, line 158) iterates
over `image_count`: with `image_count = 3` and `frames_in_flight = 2` the
constructed swapchain holds 3 image-acquired semaphores and 3 fences, not 2
(present-ready semaphores are correctly one per image). -/
theorem C6_sync_objects_counted_per_image :
    (InnerSwapchain.new descC2 supportFixed [100, 101, 102]).map
        (fun s => (s.image_semaphores.length, s.fences.length,
                   s.preset_semaphores.length)) = some (3, 3, 3) ∧
    descC2.frames_in_flight = 2 := by
  decide

/-- Claim C10 (confirmed): `recreate_swapchain(width, height)` changes only
the width and height of the stored description; the new swapchain's
`image_count` and `frames_in_flight` always equal the old ones. -/
theorem C10_recreate_desc_spec :
    ∀ (s : InnerSwapchain) (support : SwapchainSupport) (imgs : List Nat)
      (width height : Nat) (s1 : InnerSwapchain),
      Swapchain.recreate_swapchain s support imgs width height = some s1 →
      s1.desc.image_count = s.desc.image_count ∧
      s1.desc.frames_in_flight = s.desc.frames_in_flight ∧
      s1.desc.width = width ∧ s1.desc.height = height := by
  intro s support imgs width height s1 h
  unfold Swapchain.recreate_swapchain InnerSwapchain.new at h
  split at h
  · split at h
    · cases h
      exact ⟨rfl, rfl, rfl, rfl⟩
    · exact absurd h (by simp)
  · exact absurd h (by simp)

/-- Claim C10 witness: recreation of the concrete swapchain `sC2` to
640 by 480 keeps `image_count = 3` and `frames_in_flight = 2`. -/
theorem C10_witness :
    s1C10.desc.image_count = sC2.desc.image_count ∧
    s1C10.desc.frames_in_flight = sC2.desc.frames_in_flight ∧
    s1C10.desc.width = 640 ∧ s1C10.desc.height = 480 :=
  C10_recreate_desc_spec sC2 supportFixed [100, 101, 102] 640 480 s1C10 (by decide)

/-- Claim C1 counterexample: with `vkCreateBuffer` succeeding and the
allocator reporting out-of-memory, `create_buffer` aborts the process with
the `.expect` panic message instead of returning a typed error value to the
caller, so the claimed propagation does not hold at this input (and
`create_image` behaves the same way). -/
theorem C1_create_failure_panics_cex :
    InnerDevice.create_buffer envBufOOM ResourcePool.new =
      CallResult.panicked PanicMsg.failedToAllocateMemoryOnDevice ∧
    (InnerDevice.create_buffer envBufOOM ResourcePool.new).isPanicked = true ∧
    InnerDevice.create_image envImgOOM ResourcePool.new =
      CallResult.panicked PanicMsg.failedToAllocateMemoryOnDevice := by
  decide

/-- Claim C1 as amended: for every create operation on the Resource
Authority (`create_buffer`, `create_image`), a platform out-of-memory or
binding failure causes a process-terminating panic via `.expect`; no
distinguished error value is returned to the caller. -/
theorem C1_amended_create_failure_panics :
    ∀ (envB : BufferPlatformCalls) (poolB : ResourcePool BufferSlot)
      (envI : ImagePlatformCalls) (poolI : ResourcePool ImageSlot),
      ((envB.create_buffer = none ∨ envB.allocate = none ∨
          envB.bind_buffer_memory = none) →
        (InnerDevice.create_buffer envB poolB).isPanicked = true) ∧
      ((envI.create_image = none ∨ envI.allocate = none ∨
          envI.bind_image_memory = none) →
        (InnerDevice.create_image envI poolI).isPanicked = true) := by
  intro envB poolB envI poolI
  constructor
  · intro h
    unfold InnerDevice.create_buffer
    cases hc : envB.create_buffer with
    | none => rfl
    | some buffer =>
      cases ha : envB.allocate with
      | none => rfl
      | some allocation =>
        cases hb : envB.bind_buffer_memory with
        | none => rfl
        | some u => simp [hc, ha, hb] at h
  · intro h
    unfold InnerDevice.create_image
    cases hc : envI.create_image with
    | none => rfl
    | some image =>
      cases ha : envI.allocate with
      | none => rfl
      | some allocation =>
        cases hb : envI.bind_image_memory with
        | none => rfl
        | some u => simp [hc, ha, hb] at h

/-- Claim C1 witness: the amended claim evaluated at the concrete
out-of-memory environments. -/
theorem C1_witness :
    (InnerDevice.create_buffer envBufOOM ResourcePool.new).isPanicked = true ∧
    (InnerDevice.create_image envImgOOM ResourcePool.new).isPanicked = true :=
  ⟨(C1_amended_create_failure_panics envBufOOM ResourcePool.new
      envImgOOM ResourcePool.new).1 (Or.inr (Or.inl rfl)),
   (C1_amended_create_failure_panics envBufOOM ResourcePool.new
      envImgOOM ResourcePool.new).2 (Or.inr (Or.inl rfl))⟩

/-- Claim C7 counterexample: recreating the concrete 800 by 600 swapchain to
1920 by 1080 against a surface that reports a fixed current extent of
800 by 600 (min 1 by 1, max 4096 by 4096) yields extent 800 by 600, while
the requested extent clamped to the platform min/max is 1920 by 1080 —
the claim fails at this input. -/
theorem C7_extent_ignores_request_cex :
    (Swapchain.recreate_swapchain sC2 supportFixed [100, 101, 102] 1920 1080).map
        (fun s => s.extent) = some { width := 800, height := 600 } ∧
    clampU32 1920 supportFixed.capabilities.min_image_extent.width
        supportFixed.capabilities.max_image_extent.width = some 1920 ∧
    clampU32 1080 supportFixed.capabilities.min_image_extent.height
        supportFixed.capabilities.max_image_extent.height = some 1080 ∧
    ({ width := 800, height := 600 } : Extent2D) ≠ { width := 1920, height := 1080 } := by
  decide

/-- Claim C7 as amended: after `recreate_swapchain(width, height)`, the
resulting swapchain's extent equals the requested width and height clamped
to the platform's min/max image extents only when the platform reports an
unconstrained current extent (`current_extent.width = u32::MAX`); otherwise
it equals the platform's reported current extent. -/
theorem C7_amended_extent_spec :
    ∀ (s : InnerSwapchain) (support : SwapchainSupport) (imgs : List Nat)
      (width height : Nat) (s1 : InnerSwapchain),
      Swapchain.recreate_swapchain s support imgs width height = some s1 →
      (support.capabilities.current_extent.width ≠ u32Max →
        s1.extent = support.capabilities.current_extent) ∧
      (support.capabilities.current_extent.width = u32Max →
        s1.extent =
          { width := min (max width support.capabilities.min_image_extent.width)
                       support.capabilities.max_image_extent.width
            height := min (max height support.capabilities.min_image_extent.height)
                        support.capabilities.max_image_extent.height }) := by
  intro s support imgs width height s1 h
  unfold Swapchain.recreate_swapchain InnerSwapchain.new at h
  split at h
  · split at h
    · rename_i sf ext hsf hext
      cases h
      constructor
      · intro hne
        unfold chooseExtent at hext
        rw [if_pos hne] at hext
        exact (Option.some.inj hext).symm
      · intro heq
        unfold chooseExtent at hext
        rw [if_neg (by simp [heq])] at hext
        split at hext
        · rename_i w h2 hw hh
          unfold clampU32 at hw hh
          split at hw
          · split at hh
            · cases hw
              cases hh
              exact (Option.some.inj hext).symm
            · exact absurd hh (by simp)
          · exact absurd hw (by simp)
        · exact absurd hext (by simp)
    · exact absurd h (by simp)
  · exact absurd h (by simp)

/-- Claim C7 witness: the amended claim evaluated at the concrete recreation
of `sC2` to 1920 by 1080 against the fixed-extent surface. -/
theorem C7_witness : s1C7.extent = supportFixed.capabilities.current_extent :=
  (C7_amended_extent_spec sC2 supportFixed [100, 101, 102] 1920 1080 s1C7
    (by decide)).1 (by decide)

/-- Claim C9 (confirmed): `submit` selects the target queue solely from the
queue type of the first command buffer; it aborts on an empty command-buffer
list, on a first command buffer of queue type `None`, and on any command
buffer whose queue type differs from the first's. -/
theorem C9_submit_spec :
    ∀ info : QueueSubmitInfo,
      (info.command_buffers = [] → InnerDevice.submit info = none) ∧
      (∀ cb cbs, info.command_buffers = cb :: cbs →
        ((cb.queue_type = QueueType.None → InnerDevice.submit info = none) ∧
         (∀ cb2, cb2 ∈ info.command_buffers → cb2.queue_type ≠ cb.queue_type →
           InnerDevice.submit info = none) ∧
         ((∀ cb2 ∈ info.command_buffers, cb2.queue_type = cb.queue_type) →
           InnerDevice.submit info =
             (queueFor cb.queue_type).map
               (fun q => (q, info.command_buffers.map (fun c => c.handle)))))) := by
  intro info
  constructor
  · intro h
    unfold InnerDevice.submit
    rw [h]
  · intro cb cbs hcb
    refine ⟨?_, ?_, ?_⟩
    · intro hnone
      simp only [InnerDevice.submit, hcb, hnone]
      split
      · rfl
      · rfl
    · intro cb2 hmem hne
      rw [hcb] at hmem
      simp only [InnerDevice.submit, hcb]
      rw [if_neg]
      intro hall
      simp only [List.all_eq_true, decide_eq_true_eq] at hall
      exact hne (hall cb2 hmem)
    · intro hall
      rw [hcb] at hall
      simp only [InnerDevice.submit, hcb]
      rw [if_pos]
      · cases hq : queueFor cb.queue_type with
        | none => simp [hq]
        | some q => simp [hq]
      · simp only [List.all_eq_true, decide_eq_true_eq]
        exact hall

/-- Claim C9 witness: submitting two graphics command buffers selects the
graphics queue and submits both handles. -/
theorem C9_witness :
    InnerDevice.submit infoC9 =
      (queueFor cbG0.queue_type).map
        (fun q => (q, infoC9.command_buffers.map (fun c => c.handle))) :=
  ((C9_submit_spec infoC9).2 cbG0 [cbG1] rfl).2.2 (by decide)
